import Mathlib

/-!
Shallow embedding of the build-and-stage orchestration in `setup.py` of the
opentrustregion repository.

The script computes, at module load, a platform-dependent shared-library
suffix (`ext`), the two artifact file names, and the package/build directory
paths; its `CMakeBuild.run` hook then (1) ensures the build directory exists
via `os.makedirs(..., exist_ok=True)`, (2) runs `cmake ..` and
`cmake --build .` via `subprocess.check_call` with the build directory as
working directory, (3) copies the two built libraries into the
`pyopentrustregion` package-data directory via `shutil.copy`, and (4) calls
`super().run()`.

The embedding models the filesystem as a set of existing directories plus an
association list of files (byte content and permission bits, the two
attributes `shutil.copy` transfers). External `cmake` invocations are modelled
by an environment giving each step's exit status and the files it writes into
the build directory (the external tool's working directory). `run` threads the
filesystem, records a trace of observable events (directory creation, process
invocations, file copies, delegation to the inherited step), and stops at the
first raised error, exactly as the Python code propagates exceptions.
-/

/-- Filesystem paths as lists of components (pathlib paths, already absolute). -/
abbrev FsPath := List String

/-- The two attributes of a file that `shutil.copy` duplicates: byte content
and permission bits. -/
structure FileData where
  content : List Nat
  perms : Nat
deriving DecidableEq

/-- A filesystem state: the set of existing directories and the files
(an association list from path to file data; the first binding wins). -/
structure FS where
  dirs : List FsPath
  files : List (FsPath × FileData)
deriving DecidableEq

/-- Look a file up in an association list of files (first binding wins). -/
def findFile (l : List (FsPath × FileData)) (p : FsPath) : Option FileData :=
  match l with
  | [] => none
  | e :: rest => if e.1 = p then some e.2 else findFile rest p

/-- Write a file: the new binding shadows any earlier one (overwrite). -/
def setFile (fs : FS) (p : FsPath) (d : FileData) : FS :=
  { fs with files := (p, d) :: fs.files }

/-- All the directories `os.makedirs p` guarantees to exist afterwards:
every nonempty prefix of `p`, `p` itself included. -/
def dirChain (p : FsPath) : List FsPath :=
  (List.range p.length).map (fun i => p.take (i + 1))

/-- Model of `os.makedirs(p, exist_ok=True)`: create the missing directories
on the chain down to `p`; an already existing directory is left alone and
raises no error. Files are untouched. -/
def makedirs (p : FsPath) (fs : FS) : FS :=
  { fs with dirs := fs.dirs ++ (dirChain p).filter (fun q => decide (q ∉ fs.dirs)) }

/-- Errors the orchestration can raise: a `subprocess.CalledProcessError`
carrying the command and its exit status, or a filesystem error from
`shutil.copy` (missing source file or missing destination directory). -/
inductive Err where
  | calledProcessError (cmd : List String) (exitCode : Nat)
  | fileNotFound (p : FsPath)
deriving DecidableEq

/-- Model of `shutil.copy(src, dst)` with `dst` a file path: requires the
source file to exist and the destination's parent directory to exist;
duplicates content and permission bits, overwriting any existing
destination file. -/
def shutilCopy (src dst : FsPath) (fs : FS) : Except Err FS :=
  match findFile fs.files src with
  | none => Except.error (Err.fileNotFound src)
  | some d =>
    if dst.dropLast ∈ fs.dirs then Except.ok (setFile fs dst d)
    else Except.error (Err.fileNotFound dst)

/-- Observable events of one `CMakeBuild.run` invocation. -/
inductive Event where
  | makedirs (p : FsPath)
  | checkCall (cmd : List String) (cwd : FsPath)
  | copy (src dst : FsPath)
  | delegate
deriving DecidableEq

/-- Module-level line 9 of `setup.py`:
`ext = "dylib" if sys.platform == "darwin" else "so"`. -/
def ext (platform : String) : String :=
  if platform = "darwin" then "dylib" else "so"

/-- Module-level line 10: the core library's platform-qualified file name. -/
def libopentrustregion_file (platform : String) : String :=
  "libopentrustregion." ++ ext platform

/-- Module-level line 11: the test-suite library's platform-qualified name. -/
def libtestsuite_file (platform : String) : String :=
  "libtestsuite." ++ ext platform

/-- Module-level line 13: the build directory, a subdirectory of the package
root (`package_dir / "build"`). -/
def build_dir (pkgDir : FsPath) : FsPath := pkgDir ++ ["build"]

/-- The destination package-data directory, `package_dir / "pyopentrustregion"`. -/
def packageDataDir (pkgDir : FsPath) : FsPath := pkgDir ++ ["pyopentrustregion"]

/-- The configure step's command line, `["cmake", ".."]`. -/
def configureCmd : List String := ["cmake", ".."]

/-- The compile step's command line, `["cmake", "--build", "."]`. -/
def compileCmd : List String := ["cmake", "--build", "."]

/-- The environment for the two external `cmake` invocations: each step's
exit status and the files it writes into its working directory (the build
directory) while it runs. -/
structure Env where
  configureExit : Nat
  configureOutputs : List (String × FileData)
  compileExit : Nat
  compileOutputs : List (String × FileData)
deriving DecidableEq

/-- The files an external invocation writes into the build directory. -/
def writeOutputs (d : FsPath) (outs : List (String × FileData)) (fs : FS) : FS :=
  outs.foldl (fun acc o => setFile acc (d ++ [o.1]) o.2) fs

/-- The outcome of one `CMakeBuild.run` invocation: the trace of events up to
the point it stopped, the filesystem at that point, and the error it raised,
if any (`none` means it returned normally). -/
structure RunResult where
  trace : List Event
  fs : FS
  err : Option Err
deriving DecidableEq

namespace CMakeBuild

/-- Embedding of `CMakeBuild.run` from `setup.py`, lines 17 to 36: ensure the build
directory exists, run the configure step, run the compile step, copy the core
library then the test-suite library into the package-data directory, and
finally delegate to the inherited `build_py.run`. `subprocess.check_call`
raises on a non-zero exit status and `shutil.copy` raises on missing paths;
any raise propagates immediately, ending the run there. -/
def run (platform : String) (pkgDir : FsPath) (env : Env) (fs0 : FS) : RunResult :=
  let bdir := build_dir pkgDir
  let ddir := packageDataDir pkgDir
  let coreName := libopentrustregion_file platform
  let testName := libtestsuite_file platform
  let fs1 := makedirs bdir fs0
  let fs2 := writeOutputs bdir env.configureOutputs fs1
  let t2 := [Event.makedirs bdir, Event.checkCall configureCmd bdir]
  if env.configureExit = 0 then
    let fs3 := writeOutputs bdir env.compileOutputs fs2
    let t3 := t2 ++ [Event.checkCall compileCmd bdir]
    if env.compileExit = 0 then
      let t4 := t3 ++ [Event.copy (bdir ++ [coreName]) (ddir ++ [coreName])]
      match shutilCopy (bdir ++ [coreName]) (ddir ++ [coreName]) fs3 with
      | Except.error e => ⟨t4, fs3, some e⟩
      | Except.ok fs4 =>
        let t5 := t4 ++ [Event.copy (bdir ++ [testName]) (ddir ++ [testName])]
        match shutilCopy (bdir ++ [testName]) (ddir ++ [testName]) fs4 with
        | Except.error e => ⟨t5, fs4, some e⟩
        | Except.ok fs5 => ⟨t5 ++ [Event.delegate], fs5, none⟩
    else ⟨t3, fs3, some (Err.calledProcessError compileCmd env.compileExit)⟩
  else ⟨t2, fs2, some (Err.calledProcessError configureCmd env.configureExit)⟩

end CMakeBuild

/-- The complete event trace of a fully successful run, in order: directory
creation, configure, compile, the two copies (core first), delegation. -/
def fullTrace (platform : String) (pkgDir : FsPath) : List Event :=
  [Event.makedirs (build_dir pkgDir),
   Event.checkCall configureCmd (build_dir pkgDir),
   Event.checkCall compileCmd (build_dir pkgDir),
   Event.copy (build_dir pkgDir ++ [libopentrustregion_file platform])
     (packageDataDir pkgDir ++ [libopentrustregion_file platform]),
   Event.copy (build_dir pkgDir ++ [libtestsuite_file platform])
     (packageDataDir pkgDir ++ [libtestsuite_file platform]),
   Event.delegate]

/-- Whether an event is a `shutil.copy` invocation. -/
def isCopyEvent : Event → Bool
  | Event.copy _ _ => true
  | _ => false

/-! ## Helper lemmas about the filesystem primitives -/

theorem findFile_setFile_self (fs : FS) (p : FsPath) (d : FileData) :
    findFile (setFile fs p d).files p = some d := by
  simp [setFile, findFile]

theorem findFile_setFile_ne (fs : FS) (p q : FsPath) (d : FileData) (h : ¬p = q) :
    findFile (setFile fs p d).files q = findFile fs.files q := by
  simp [setFile, findFile, h]

theorem setFile_dirs (fs : FS) (p : FsPath) (d : FileData) :
    (setFile fs p d).dirs = fs.dirs := rfl

theorem writeOutputs_dirs (d : FsPath) (outs : List (String × FileData)) (fs : FS) :
    (writeOutputs d outs fs).dirs = fs.dirs := by
  induction outs generalizing fs with
  | nil => rfl
  | cons o rest ih => simp [writeOutputs, List.foldl_cons] at ih ⊢; exact ih _

theorem findFile_writeOutputs_ne (d : FsPath) (outs : List (String × FileData))
    (fs : FS) (q : FsPath) (h : ∀ n, ¬d ++ [n] = q) :
    findFile (writeOutputs d outs fs).files q = findFile fs.files q := by
  induction outs generalizing fs with
  | nil => rfl
  | cons o rest ih =>
    simp only [writeOutputs, List.foldl_cons] at ih ⊢
    rw [ih (setFile fs (d ++ [o.1]) o.2), findFile_setFile_ne _ _ _ _ (h o.1)]

theorem makedirs_files (p : FsPath) (fs : FS) : (makedirs p fs).files = fs.files := rfl

theorem mem_dirs_makedirs (p q : FsPath) (fs : FS) (h : q ∈ fs.dirs) :
    q ∈ (makedirs p fs).dirs := by
  simp [makedirs]
  exact Or.inl h

theorem mem_dirs_makedirs_elim (p q : FsPath) (fs : FS)
    (h : q ∈ (makedirs p fs).dirs) : q ∈ fs.dirs ∨ q ∈ dirChain p := by
  simp [makedirs, List.mem_filter] at h
  rcases h with h | h
  · exact Or.inl h
  · exact Or.inr h.1

theorem self_mem_dirChain (p : FsPath) (h : ¬p = []) : p ∈ dirChain p := by
  have hl : 0 < p.length := List.length_pos.mpr h
  simp only [dirChain, List.mem_map, List.mem_range]
  exact ⟨p.length - 1, by omega, by rw [Nat.sub_add_cancel hl, List.take_length]⟩

theorem self_mem_dirs_makedirs (p : FsPath) (fs : FS) (h : ¬p = []) :
    p ∈ (makedirs p fs).dirs := by
  simp [makedirs, List.mem_filter]
  by_cases hp : p ∈ fs.dirs
  · exact Or.inl hp
  · exact Or.inr ⟨self_mem_dirChain p h, hp⟩

theorem makedirs_makedirs (p : FsPath) (fs : FS) :
    makedirs p (makedirs p fs) = makedirs p fs := by
  cases fs with
  | mk dirs files =>
    simp only [makedirs]
    congr 1
    rw [List.append_assoc]
    congr 1
    have : (dirChain p).filter
        (fun q => decide (q ∉ dirs ++ (dirChain p).filter (fun r => decide (r ∉ dirs)))) = [] := by
      rw [List.filter_eq_nil_iff]
      intro a ha
      simp only [decide_eq_true_eq, not_not, List.mem_append, List.mem_filter,
        decide_eq_true_eq]
      by_cases h : a ∈ dirs
      · exact Or.inl h
      · exact Or.inr ⟨ha, h⟩
    rw [this, List.append_nil]

/-! ## Claim theorems -/

/-- C1: every invocation of `CMakeBuild.run` performs its steps in the strict
order make-build-directory, configure, compile, stage core library, stage
test-suite library, delegate to the inherited `build_py.run`: the trace is
always an initial segment of the full trace, the run succeeds exactly when
the whole trace (delegation included) was performed, and delegation to the
default behavior happens exactly on success, never after a raised step. -/
theorem run_step_order (platform : String) (pkgDir : FsPath) (env : Env) (fs0 : FS) :
    (∃ k, (CMakeBuild.run platform pkgDir env fs0).trace = (fullTrace platform pkgDir).take k)
    ∧ ((CMakeBuild.run platform pkgDir env fs0).err = none
        ↔ (CMakeBuild.run platform pkgDir env fs0).trace = fullTrace platform pkgDir)
    ∧ (Event.delegate ∈ (CMakeBuild.run platform pkgDir env fs0).trace
        ↔ (CMakeBuild.run platform pkgDir env fs0).err = none) := by
  simp only [CMakeBuild.run]
  split
  · split
    · split
      · refine ⟨⟨4, by simp [fullTrace]⟩, by simp [fullTrace], by simp⟩
      · split
        · refine ⟨⟨5, by simp [fullTrace]⟩, by simp [fullTrace], by simp⟩
        · refine ⟨⟨6, by simp [fullTrace]⟩, by simp [fullTrace], by simp [fullTrace]⟩
    · refine ⟨⟨3, by simp [fullTrace]⟩, by simp [fullTrace], by simp⟩
  · refine ⟨⟨2, by simp [fullTrace]⟩, by simp [fullTrace], by simp⟩

/-- C2: when the configure step exits with a non-zero status, the run stops
right there: the trace holds exactly the directory creation and the configure
invocation (so the compile step is never invoked and no copy occurs), and the
raised error is the configure step's `CalledProcessError`, carrying that very
command and exit status, unchanged. -/
theorem configure_failure_aborts (platform : String) (pkgDir : FsPath) (env : Env)
    (fs0 : FS) (h : ¬env.configureExit = 0) :
    (CMakeBuild.run platform pkgDir env fs0).trace
      = [Event.makedirs (build_dir pkgDir), Event.checkCall configureCmd (build_dir pkgDir)]
    ∧ (CMakeBuild.run platform pkgDir env fs0).err
      = some (Err.calledProcessError configureCmd env.configureExit)
    ∧ (∀ cwd, Event.checkCall compileCmd cwd ∉ (CMakeBuild.run platform pkgDir env fs0).trace)
    ∧ (∀ s d, Event.copy s d ∉ (CMakeBuild.run platform pkgDir env fs0).trace) := by
  simp only [CMakeBuild.run, if_neg h]
  refine ⟨by simp, by simp, ?_, by simp⟩
  intro cwd
  simp [configureCmd, compileCmd]

/-- C2 witness: a concrete run whose configure step exits with status 1. -/
theorem configure_failure_aborts_witness :
    ¬(Env.mk 1 [] 0 []).configureExit = 0
    ∧ ((CMakeBuild.run "linux" ["pkg"] (Env.mk 1 [] 0 []) (FS.mk [["pkg"]] [])).trace
        = [Event.makedirs (build_dir ["pkg"]),
           Event.checkCall configureCmd (build_dir ["pkg"])]
      ∧ (CMakeBuild.run "linux" ["pkg"] (Env.mk 1 [] 0 []) (FS.mk [["pkg"]] [])).err
        = some (Err.calledProcessError configureCmd 1)
      ∧ (∀ cwd, Event.checkCall compileCmd cwd
          ∉ (CMakeBuild.run "linux" ["pkg"] (Env.mk 1 [] 0 []) (FS.mk [["pkg"]] [])).trace)
      ∧ (∀ s d, Event.copy s d
          ∉ (CMakeBuild.run "linux" ["pkg"] (Env.mk 1 [] 0 []) (FS.mk [["pkg"]] [])).trace)) :=
  ⟨by decide, configure_failure_aborts "linux" ["pkg"] (Env.mk 1 [] 0 []) (FS.mk [["pkg"]] [])
    (by decide)⟩

theorem packageDataDir_not_mem_dirChain (pkgDir : FsPath) :
    packageDataDir pkgDir ∉ dirChain (build_dir pkgDir) := by
  intro h
  simp only [dirChain, List.mem_map, List.mem_range] at h
  obtain ⟨i, hi, heq⟩ := h
  have hlen := congrArg List.length heq
  simp only [List.length_take, build_dir, packageDataDir, List.length_append,
    List.length_cons, List.length_nil] at hlen
  have hlt : i < pkgDir.length + 1 := by
    simpa [build_dir] using hi
  have hi1 : i + 1 = (build_dir pkgDir).length := by
    simp only [build_dir, List.length_append, List.length_cons, List.length_nil]
    omega
  rw [hi1, List.take_length] at heq
  simp only [build_dir, packageDataDir] at heq
  have hcancel := List.append_cancel_left heq
  simp at hcancel

theorem buildFile_ne_packageDataFile (pkgDir : FsPath) (n : String) (q : FsPath) :
    ¬build_dir pkgDir ++ [n] = packageDataDir pkgDir ++ q := by
  intro h
  simp only [build_dir, packageDataDir, List.append_assoc] at h
  have hcancel := List.append_cancel_left h
  simp at hcancel

/-- C3: when the compile step exits with a non-zero status (configure having
succeeded), the run stops there: no copy event occurs, the raised error is the
compile step's `CalledProcessError`, and the package-data destination
directory is left unchanged — every file path under it has the same content
as before the run, and the directory itself exists afterwards exactly when it
existed before. -/
theorem compile_failure_aborts (platform : String) (pkgDir : FsPath) (env : Env)
    (fs0 : FS) (hc : env.configureExit = 0) (hb : ¬env.compileExit = 0) :
    (CMakeBuild.run platform pkgDir env fs0).trace
      = [Event.makedirs (build_dir pkgDir), Event.checkCall configureCmd (build_dir pkgDir),
         Event.checkCall compileCmd (build_dir pkgDir)]
    ∧ (CMakeBuild.run platform pkgDir env fs0).err
      = some (Err.calledProcessError compileCmd env.compileExit)
    ∧ (∀ s d, Event.copy s d ∉ (CMakeBuild.run platform pkgDir env fs0).trace)
    ∧ (∀ q, findFile (CMakeBuild.run platform pkgDir env fs0).fs.files
          (packageDataDir pkgDir ++ q) = findFile fs0.files (packageDataDir pkgDir ++ q))
    ∧ (packageDataDir pkgDir ∈ (CMakeBuild.run platform pkgDir env fs0).fs.dirs
        ↔ packageDataDir pkgDir ∈ fs0.dirs) := by
  simp only [CMakeBuild.run, if_pos hc, if_neg hb]
  refine ⟨by simp, by simp, by simp, ?_, ?_⟩
  · intro q
    rw [findFile_writeOutputs_ne _ _ _ _ (fun n => buildFile_ne_packageDataFile pkgDir n q),
      findFile_writeOutputs_ne _ _ _ _ (fun n => buildFile_ne_packageDataFile pkgDir n q),
      makedirs_files]
  · rw [writeOutputs_dirs, writeOutputs_dirs]
    constructor
    · intro h
      rcases mem_dirs_makedirs_elim _ _ _ h with h | h
      · exact h
      · exact absurd h (packageDataDir_not_mem_dirChain pkgDir)
    · exact mem_dirs_makedirs _ _ _

/-- C3 witness: a concrete run whose compile step exits with status 1, on a
filesystem whose package-data directory holds no artifacts. -/
theorem compile_failure_aborts_witness :
    (Env.mk 0 [] 1 []).configureExit = 0 ∧ ¬(Env.mk 0 [] 1 []).compileExit = 0
    ∧ ((CMakeBuild.run "linux" ["pkg"] (Env.mk 0 [] 1 []) (FS.mk [["pkg"]] [])).trace
        = [Event.makedirs (build_dir ["pkg"]), Event.checkCall configureCmd (build_dir ["pkg"]),
           Event.checkCall compileCmd (build_dir ["pkg"])]
      ∧ (CMakeBuild.run "linux" ["pkg"] (Env.mk 0 [] 1 []) (FS.mk [["pkg"]] [])).err
        = some (Err.calledProcessError compileCmd 1)
      ∧ (∀ s d, Event.copy s d
          ∉ (CMakeBuild.run "linux" ["pkg"] (Env.mk 0 [] 1 []) (FS.mk [["pkg"]] [])).trace)
      ∧ (∀ q, findFile (CMakeBuild.run "linux" ["pkg"] (Env.mk 0 [] 1 []) (FS.mk [["pkg"]] [])).fs.files
            (packageDataDir ["pkg"] ++ q)
          = findFile (FS.mk [["pkg"]] []).files (packageDataDir ["pkg"] ++ q))
      ∧ (packageDataDir ["pkg"]
            ∈ (CMakeBuild.run "linux" ["pkg"] (Env.mk 0 [] 1 []) (FS.mk [["pkg"]] [])).fs.dirs
          ↔ packageDataDir ["pkg"] ∈ (FS.mk [["pkg"]] []).dirs)) :=
  ⟨by decide, by decide,
    compile_failure_aborts "linux" ["pkg"] (Env.mk 0 [] 1 []) (FS.mk [["pkg"]] [])
      (by decide) (by decide)⟩

/-- C4: the platform resolver `ext` is a total function of the
operating-system identifier: on every identifier it yields either "dylib" or
"so", and it yields "dylib" exactly on "darwin" — so every other identifier,
unknown ones included, receives "so". As a Lean function it is total and
pure by construction, so it never fails and has no side effects. -/
theorem ext_total_mapping (s : String) :
    (ext s = "dylib" ∨ ext s = "so") ∧ (ext s = "dylib" ↔ s = "darwin") := by
  unfold ext
  by_cases h : s = "darwin" <;> simp [h]

/-- C5: the build-directory manager is idempotent create-if-missing: a second
`makedirs` on the build directory changes nothing (the whole filesystem state
is identical and no error is raised, since the model raises none), one
invocation makes the build directory exist, files are never touched (so an
already-present directory's contents survive), and every directory existing
before still exists after (nothing is deleted or recreated). -/
theorem makedirs_idempotent_create (pkgDir : FsPath) (fs : FS) :
    makedirs (build_dir pkgDir) (makedirs (build_dir pkgDir) fs)
      = makedirs (build_dir pkgDir) fs
    ∧ build_dir pkgDir ∈ (makedirs (build_dir pkgDir) fs).dirs
    ∧ (makedirs (build_dir pkgDir) fs).files = fs.files
    ∧ fs.dirs ⊆ (makedirs (build_dir pkgDir) fs).dirs := by
  refine ⟨makedirs_makedirs _ _, self_mem_dirs_makedirs _ _ (by simp [build_dir]), rfl, ?_⟩
  intro q hq
  exact mem_dirs_makedirs _ _ _ hq


theorem shutilCopy_error_shape (src dst : FsPath) (fs : FS) (e : Err)
    (h : shutilCopy src dst fs = Except.error e) : ∃ p, e = Err.fileNotFound p := by
  unfold shutilCopy at h
  split at h
  · exact ⟨src, by injection h with h1; rw [h1]⟩
  · split at h
    · cases h
    · exact ⟨dst, by injection h with h1; rw [h1]⟩

theorem shutilCopy_ok_dest_dir (src dst : FsPath) (fs fs' : FS)
    (h : shutilCopy src dst fs = Except.ok fs') : dst.dropLast ∈ fs.dirs := by
  unfold shutilCopy at h
  split at h
  · cases h
  · split at h
    · assumption
    · cases h

/-- C6: artifact staging is last-write-wins. With the source file present and
the destination directory existing, a first `shutil.copy` succeeds and leaves
the first content at the destination; after the source is rewritten with
different content, a second `shutil.copy` succeeds again — no error from the
destination already existing — and the destination then holds exactly the
second content, with no merging. -/
theorem staging_last_write_wins (fs : FS) (src dst : FsPath) (d1 d2 : FileData)
    (hsrc : findFile fs.files src = some d1)
    (hdir : dst.dropLast ∈ fs.dirs)
    (_hne : ¬src = dst) :
    ∃ fs1, shutilCopy src dst fs = Except.ok fs1
      ∧ findFile fs1.files dst = some d1
      ∧ ∃ fs2, shutilCopy src dst (setFile fs1 src d2) = Except.ok fs2
        ∧ findFile fs2.files dst = some d2 := by
  refine ⟨setFile fs dst d1, by simp [shutilCopy, hsrc, hdir],
    findFile_setFile_self _ _ _, ?_⟩
  have hsrc2 : findFile (setFile (setFile fs dst d1) src d2).files src = some d2 :=
    findFile_setFile_self _ _ _
  have hdir2 : dst.dropLast ∈ (setFile (setFile fs dst d1) src d2).dirs := hdir
  exact ⟨setFile (setFile (setFile fs dst d1) src d2) dst d2,
    by simp [shutilCopy, hsrc2, hdir2], findFile_setFile_self _ _ _⟩

/-- C6 witness: staging the file at `b/f` into `p/f` twice, the source
rewritten in between with different content and permissions. -/
theorem staging_last_write_wins_witness :
    findFile (FS.mk [["p"]] [(["b", "f"], FileData.mk [1] 7)]).files ["b", "f"]
        = some (FileData.mk [1] 7)
    ∧ (["p", "f"] : FsPath).dropLast ∈ (FS.mk [["p"]] [(["b", "f"], FileData.mk [1] 7)]).dirs
    ∧ ¬(["b", "f"] : FsPath) = ["p", "f"]
    ∧ (∃ fs1, shutilCopy ["b", "f"] ["p", "f"] (FS.mk [["p"]] [(["b", "f"], FileData.mk [1] 7)])
          = Except.ok fs1
        ∧ findFile fs1.files ["p", "f"] = some (FileData.mk [1] 7)
        ∧ ∃ fs2, shutilCopy ["b", "f"] ["p", "f"] (setFile fs1 ["b", "f"] (FileData.mk [2] 6))
            = Except.ok fs2
          ∧ findFile fs2.files ["p", "f"] = some (FileData.mk [2] 6)) :=
  ⟨by decide, by decide, by decide,
    staging_last_write_wins (FS.mk [["p"]] [(["b", "f"], FileData.mk [1] 7)])
      ["b", "f"] ["p", "f"] (FileData.mk [1] 7) (FileData.mk [2] 6)
      (by decide) (by decide) (by decide)⟩

/-- C7: a successful `shutil.copy` is a full content-plus-permissions
duplication: the destination afterwards holds exactly the file data (byte
content and permission bits) the source held, whatever the destination held
before — an already-present destination file is overwritten, since no
hypothesis about the prior destination content is needed. The directory set
is untouched. -/
theorem copy_duplicates_content_perms (src dst : FsPath) (fs fs' : FS)
    (h : shutilCopy src dst fs = Except.ok fs') :
    (∃ d, findFile fs.files src = some d ∧ findFile fs'.files dst = some d)
    ∧ fs'.dirs = fs.dirs := by
  unfold shutilCopy at h
  split at h
  · cases h
  · split at h
    · rename_i d heq hdir
      have hfs : setFile fs dst d = fs' := by injection h
      rw [← hfs]
      exact ⟨⟨d, heq, findFile_setFile_self _ _ _⟩, rfl⟩
    · cases h

/-- C7 witness: copying `b/f` over an already-present destination file `p/f`
holding different content and permission bits. -/
theorem copy_duplicates_content_perms_witness :
    shutilCopy ["b", "f"] ["p", "f"]
        (FS.mk [["p"]] [(["b", "f"], FileData.mk [3, 4] 5), (["p", "f"], FileData.mk [9] 1)])
      = Except.ok (setFile
          (FS.mk [["p"]] [(["b", "f"], FileData.mk [3, 4] 5), (["p", "f"], FileData.mk [9] 1)])
          ["p", "f"] (FileData.mk [3, 4] 5))
    ∧ ((∃ d, findFile
          (FS.mk [["p"]] [(["b", "f"], FileData.mk [3, 4] 5),
            (["p", "f"], FileData.mk [9] 1)]).files ["b", "f"] = some d
        ∧ findFile (setFile
            (FS.mk [["p"]] [(["b", "f"], FileData.mk [3, 4] 5), (["p", "f"], FileData.mk [9] 1)])
            ["p", "f"] (FileData.mk [3, 4] 5)).files ["p", "f"] = some d)
      ∧ (setFile
          (FS.mk [["p"]] [(["b", "f"], FileData.mk [3, 4] 5), (["p", "f"], FileData.mk [9] 1)])
          ["p", "f"] (FileData.mk [3, 4] 5)).dirs
        = (FS.mk [["p"]] [(["b", "f"], FileData.mk [3, 4] 5),
            (["p", "f"], FileData.mk [9] 1)]).dirs) :=
  ⟨by rfl,
    copy_duplicates_content_perms ["b", "f"] ["p", "f"]
      (FS.mk [["p"]] [(["b", "f"], FileData.mk [3, 4] 5), (["p", "f"], FileData.mk [9] 1)])
      (setFile
        (FS.mk [["p"]] [(["b", "f"], FileData.mk [3, 4] 5), (["p", "f"], FileData.mk [9] 1)])
        ["p", "f"] (FileData.mk [3, 4] 5))
      (by rfl)⟩

/-- C8: the two artifact copies happen in a fixed deterministic order — the
copy events occurring in any run are always an initial segment of the
two-element sequence core-library copy first, test-suite copy second. So the
test-suite library is never copied before the core library, and the only
observable partial-staging state is the core library staged with the
test-suite library not staged, never the reverse. -/
theorem copy_order_core_first (platform : String) (pkgDir : FsPath) (env : Env) (fs0 : FS) :
    ∃ k, (CMakeBuild.run platform pkgDir env fs0).trace.filter isCopyEvent
      = ([Event.copy (build_dir pkgDir ++ [libopentrustregion_file platform])
            (packageDataDir pkgDir ++ [libopentrustregion_file platform]),
          Event.copy (build_dir pkgDir ++ [libtestsuite_file platform])
            (packageDataDir pkgDir ++ [libtestsuite_file platform])].take k) := by
  simp only [CMakeBuild.run]
  split
  · split
    · split
      · exact ⟨1, by simp [isCopyEvent]⟩
      · split
        · exact ⟨2, by simp [isCopyEvent]⟩
        · exact ⟨2, by simp [isCopyEvent]⟩
    · exact ⟨0, by simp [isCopyEvent]⟩
  · exact ⟨0, by simp [isCopyEvent]⟩

/-- C9: the orchestration never creates the destination package-data
directory: the only directory-creation event targets the build directory,
and when `pyopentrustregion` is absent at the start it is still absent at the
end — so even after a successful configure and compile, staging fails with a
filesystem (file-not-found) error. -/
theorem never_creates_package_data_dir (platform : String) (pkgDir : FsPath) (env : Env)
    (fs0 : FS) (hdd : packageDataDir pkgDir ∉ fs0.dirs)
    (hc : env.configureExit = 0) (hb : env.compileExit = 0) :
    (∀ q, Event.makedirs q ∈ (CMakeBuild.run platform pkgDir env fs0).trace
        → q = build_dir pkgDir)
    ∧ packageDataDir pkgDir ∉ (CMakeBuild.run platform pkgDir env fs0).fs.dirs
    ∧ (∃ p, (CMakeBuild.run platform pkgDir env fs0).err = some (Err.fileNotFound p)) := by
  have hfs3 : packageDataDir pkgDir
      ∉ (writeOutputs (build_dir pkgDir) env.compileOutputs
          (writeOutputs (build_dir pkgDir) env.configureOutputs
            (makedirs (build_dir pkgDir) fs0))).dirs := by
    rw [writeOutputs_dirs, writeOutputs_dirs]
    intro hmem
    rcases mem_dirs_makedirs_elim _ _ _ hmem with hmem | hmem
    · exact hdd hmem
    · exact packageDataDir_not_mem_dirChain pkgDir hmem
  simp only [CMakeBuild.run, if_pos hc, if_pos hb]
  split
  · rename_i e heq
    obtain ⟨p, hp⟩ := shutilCopy_error_shape _ _ _ _ heq
    exact ⟨by simp, hfs3, p, by simp [hp]⟩
  · rename_i fs4 heq
    have hdir := shutilCopy_ok_dest_dir _ _ _ _ heq
    rw [List.dropLast_concat] at hdir
    exact absurd hdir hfs3

/-- C9 witness: a concrete successful configure and compile over a filesystem
without the `pyopentrustregion` directory. -/
theorem never_creates_package_data_dir_witness :
    packageDataDir ["pkg"] ∉ (FS.mk [["pkg"]] []).dirs
    ∧ (Env.mk 0 [] 0 []).configureExit = 0
    ∧ (Env.mk 0 [] 0 []).compileExit = 0
    ∧ ((∀ q, Event.makedirs q
          ∈ (CMakeBuild.run "linux" ["pkg"] (Env.mk 0 [] 0 []) (FS.mk [["pkg"]] [])).trace
          → q = build_dir ["pkg"])
      ∧ packageDataDir ["pkg"]
          ∉ (CMakeBuild.run "linux" ["pkg"] (Env.mk 0 [] 0 []) (FS.mk [["pkg"]] [])).fs.dirs
      ∧ (∃ p, (CMakeBuild.run "linux" ["pkg"] (Env.mk 0 [] 0 []) (FS.mk [["pkg"]] [])).err
          = some (Err.fileNotFound p))) :=
  ⟨by decide, by decide, by decide,
    never_creates_package_data_dir "linux" ["pkg"] (Env.mk 0 [] 0 []) (FS.mk [["pkg"]] [])
      (by decide) (by decide) (by decide)⟩

/-- C10: the platform suffix is resolved once from the platform identifier,
and both artifact file names carry that same single suffix `ext platform`;
every copy event of every run moves a file out of the build directory into
the package-data directory under the identical platform-qualified file name,
that name being one of the two artifact names. -/
theorem single_suffix_invariant (platform : String) (pkgDir : FsPath) (env : Env) (fs0 : FS) :
    libopentrustregion_file platform = "libopentrustregion" ++ "." ++ ext platform
    ∧ libtestsuite_file platform = "libtestsuite" ++ "." ++ ext platform
    ∧ (∀ s d, Event.copy s d ∈ (CMakeBuild.run platform pkgDir env fs0).trace
        → ∃ f, s = build_dir pkgDir ++ [f] ∧ d = packageDataDir pkgDir ++ [f]
          ∧ (f = libopentrustregion_file platform ∨ f = libtestsuite_file platform)) := by
  refine ⟨?_, ?_, ?_⟩
  · unfold libopentrustregion_file ext
    by_cases h : platform = "darwin" <;> simp [h]
  · unfold libtestsuite_file ext
    by_cases h : platform = "darwin" <;> simp [h]
  · simp only [CMakeBuild.run]
    split
    · split
      · split
        · intro s d h
          simp at h
          exact ⟨libopentrustregion_file platform, h.1, h.2, Or.inl rfl⟩
        · split
          · intro s d h
            simp at h
            rcases h with ⟨hs, hd⟩ | ⟨hs, hd⟩
            · exact ⟨libopentrustregion_file platform, hs, hd, Or.inl rfl⟩
            · exact ⟨libtestsuite_file platform, hs, hd, Or.inr rfl⟩
          · intro s d h
            simp at h
            rcases h with ⟨hs, hd⟩ | ⟨hs, hd⟩
            · exact ⟨libopentrustregion_file platform, hs, hd, Or.inl rfl⟩
            · exact ⟨libtestsuite_file platform, hs, hd, Or.inr rfl⟩
      · intro s d h
        simp at h
    · intro s d h
      simp at h
